import Mathlib

/-!
Verification development for the B2B conversational ordering system
(`conversation_system.py`, `progressive_inquiry_system.py`).

The Python code is shallowly embedded: dictionaries become structures,
`None` becomes `Option`, Python truthiness of an optional integer is made
explicit (`none` and `some 0` are falsy), exceptions raised by the external
understanding oracle become an `Except` input, and the database / the
external oracle are inputs (row lists, function parameters) since they are
external collaborators.  The specific regular expressions used by the source
are linear patterns (literal / character-class / `\s*` / greedy `(\d+)`
items, plus one two-way alternation); they are embedded as `PatItem` lists
and searched leftmost-first exactly as `re.search` / `re.findall`-then-`[0]`
behave on such patterns (greedy digit runs never need backtracking here
because no pattern follows a digit capture with something that can start
with a digit).
-/

namespace ConvSys

/-- ASCII whitespace, the relevant subset of Python's `\s`. -/
def isWs (c : Char) : Bool := c = ' ' || c = '\t' || c = '\n' || c = '\r'

/-- Python `str.upper()` restricted to ASCII plus the Turkish letters that
occur in the source's patterns and data. -/
def pyUpper (c : Char) : Char :=
  if c = 'ç' then 'Ç' else if c = 'ö' then 'Ö' else if c = 'ü' then 'Ü'
  else if c = 'ş' then 'Ş' else if c = 'ğ' then 'Ğ' else if c = 'ı' then 'I'
  else c.toUpper

/-- Python `str.lower()` restricted to ASCII plus the Turkish letters that
occur in the source's patterns and data. -/
def pyLower (c : Char) : Char :=
  if c = 'Ç' then 'ç' else if c = 'Ö' then 'ö' else if c = 'Ü' then 'ü'
  else if c = 'Ş' then 'ş' else if c = 'Ğ' then 'ğ' else if c = 'Ø' then 'ø'
  else c.toLower

/-- Numeric value of a digit run. -/
def digitsVal (ds : List Char) : Nat :=
  ds.foldl (fun a c => a * 10 + (c.toNat - '0'.toNat)) 0

/-- Does `p` occur as a contiguous sublist of `l`?  (Python's `in` on
strings.) -/
def startsWithList (p l : List Char) : Bool :=
  match p, l with
  | [], _ => true
  | _ :: _, [] => false
  | a :: p', b :: l' => a = b && startsWithList p' l'

def containsList (l p : List Char) : Bool :=
  match l with
  | [] => startsWithList p []
  | _ :: l' => startsWithList p l || containsList l' p

/-- One item of the linear patterns used by the source's regular
expressions. -/
inductive PatItem where
  | digits                  -- `(\d+)` : capturing, greedy
  | ws                      -- `\s*`
  | lit (s : List Char)     -- literal characters
  | cls (cs : List Char)    -- a character class, one character
  deriving Repr

/-- Match a pattern at the current position; returns the captured digit
groups on success. -/
def matchAt : List PatItem → List Char → Option (List Nat)
  | [], _ => some []
  | PatItem.digits :: rest, cs =>
      let ds := cs.takeWhile Char.isDigit
      if ds.isEmpty then none
      else (matchAt rest (cs.drop ds.length)).map (fun caps => digitsVal ds :: caps)
  | PatItem.ws :: rest, cs => matchAt rest (cs.dropWhile isWs)
  | PatItem.lit l :: rest, cs =>
      if startsWithList l cs then matchAt rest (cs.drop l.length) else none
  | PatItem.cls ks :: rest, cs =>
      match cs with
      | [] => none
      | c :: cs' => if ks.contains c then matchAt rest cs' else none

/-- Leftmost search (`re.search`): try each start position in order. -/
def searchFrom (p : List PatItem) : List Char → Option (List Nat)
  | [] => matchAt p []
  | c :: cs =>
      match matchAt p (c :: cs) with
      | some caps => some caps
      | none => searchFrom p (c :: cs).tail

/-- Leftmost search for an alternation of patterns: at each position the
alternatives are tried left to right (the `(?:A|B)` construct). -/
def searchAltFrom (ps : List (List PatItem)) : List Char → Option (List Nat)
  | [] => ps.firstM (fun p => matchAt p [])
  | c :: cs =>
      match ps.firstM (fun p => matchAt p (c :: cs)) with
      | some caps => some caps
      | none => searchAltFrom ps (c :: cs).tail

/-- The first capture of the first pattern in `pats` that matches anywhere
in `cs` (the source loops over its pattern list and `break`s on the first
`re.search` hit). -/
def firstPatternCapture (pats : List (List PatItem)) (cs : List Char) : Option Nat :=
  pats.firstM (fun p => (searchFrom p cs).bind List.head?)

end ConvSys

namespace ConvSys

/-- The dictionary produced by `parse_user_input` /
`parse_user_input_fallback`. -/
structure Parsed where
  diameter : Option Int
  stroke : Option Int
  features : Option (List String)
  quantity : Option Int
  brand_preference : Option String
  corrected_query : Option String := none
  tone : String
  ai_response : String
  intent : String
  confidence : ℚ
  sub_intent : Option String := none
  action : Option String := none
  deriving Repr, DecidableEq

/-- The oracle's reply (`openrouter_client.extract_specifications`) as
consumed by `parse_user_input`; its fields are untrusted external data. -/
structure AIExtraction where
  diameter : Option Int
  stroke : Option Int
  features : Option (List String)
  quantity : Option Int
  brand_preference : Option String
  corrected_query : Option String
  suggested_response : String
  intent : String
  confidence : ℚ
  sub_intent : Option String
  action : Option String
  deriving Repr, DecidableEq

/-- Python truthiness of an optional integer: `None` and `0` are falsy. -/
def truthyInt : Option Int → Bool
  | none => false
  | some v => v != 0

/-- `self.friendly_words`. -/
def friendlyWords : List String :=
  ["canım", "canim", "kardeşim", "kardesim", "dostum", "abi", "abla", "reis"]

/-- `'friendly' if any(word in query.lower() for word in self.friendly_words)
else 'professional'`. -/
def toneOf (query : String) : String :=
  if friendlyWords.any (fun w => containsList (query.toList.map pyLower) w.toList)
  then "friendly" else "professional"

/-- `diameter_patterns` of `parse_user_input_fallback` (searched on the
lowercased query). -/
def diameterPatterns : List (List PatItem) :=
  [ [.digits, .ws, .lit "mm".toList, .ws, .lit "çap".toList],
    [.lit "ø".toList, .ws, .digits],
    [.digits, .ws, .lit "çap".toList],
    [.lit "çap".toList, .ws, .digits] ]

/-- `stroke_patterns` of `parse_user_input_fallback`. -/
def strokePatterns : List (List PatItem) :=
  [ [.digits, .ws, .lit "mm".toList, .ws, .lit "strok".toList],
    [.digits, .ws, .lit "strok".toList],
    [.lit "strok".toList, .ws, .digits],
    [.lit "x".toList, .ws, .digits] ]

/-- `quantity_patterns` of `parse_user_input_fallback`. -/
def quantityPatterns : List (List PatItem) :=
  [ [.digits, .ws, .lit "adet".toList],
    [.digits, .ws, .lit "tane".toList],
    [.digits, .ws, .lit "parça".toList] ]

/-- `r'(\d+)\s*[x*×]\s*(\d+)'`, searched on the raw (unlowered) query. -/
def dimensionPattern : List PatItem :=
  [.digits, .ws, .cls ['x', '*', '×'], .ws, .digits]

/-- `B2BConversationSystem.parse_user_input_fallback` (lines 178-254):
regex-based extraction with confidence fixed at 0.6. -/
def parseUserInputFallback (query : String) : Parsed :=
  let ql := query.toList.map pyLower
  let d0 := firstPatternCapture diameterPatterns ql
  let s0 := firstPatternCapture strokePatterns ql
  -- special `100x200` / `100*200` pattern; fills only falsy fields
  let dim := searchFrom dimensionPattern query.toList
  let d1 : Option Int :=
    match dim with
    | some (n1 :: _ :: _) =>
        if truthyInt (d0.map Int.ofNat) then d0.map Int.ofNat else some (Int.ofNat n1)
    | _ => d0.map Int.ofNat
  let s1 : Option Int :=
    match dim with
    | some (_ :: n2 :: _) =>
        if truthyInt (s0.map Int.ofNat) then s0.map Int.ofNat else some (Int.ofNat n2)
    | _ => s0.map Int.ofNat
  let q0 := firstPatternCapture quantityPatterns ql
  { diameter := d1
    stroke := s1
    features := some []
    quantity := q0.map Int.ofNat
    brand_preference := none
    tone := toneOf query
    ai_response := ""
    intent := "spec_query"
    confidence := 0.6 }

/-- `parsed.get(k) and parsed[k] > bound`: the sanity-gate condition. -/
def overBound (o : Option Int) (bound : Int) : Bool :=
  match o with
  | none => false
  | some v => (v != 0) && (bound < v)

/-- `B2BConversationSystem.parse_user_input` (lines 106-176).  The oracle
call (and its JSON decoding) is an input: `.error` represents any raised
exception, in which case the method returns the regex fallback.  On `.ok`
the AI fields are copied, the regex fallback backfills falsy
diameter/stroke, and the sanity gate (diameter > 1000, stroke > 2000)
replaces implausible values by the regex ones. -/
def parseUserInput (oracle : Except String AIExtraction) (query : String) : Parsed :=
  match oracle with
  | .error _ => parseUserInputFallback query
  | .ok ai =>
      let fb := parseUserInputFallback query
      let d0 := ai.diameter
      let s0 := ai.stroke
      -- `if regex_fallback.get('diameter') and not parsed.get('diameter')`
      let d1 := if truthyInt fb.diameter && !truthyInt d0 then fb.diameter else d0
      let s1 := if truthyInt fb.stroke && !truthyInt s0 then fb.stroke else s0
      -- sanity checks
      let d2 := if overBound d1 1000 then fb.diameter else d1
      let s2 := if overBound s1 2000 then fb.stroke else s1
      { diameter := d2
        stroke := s2
        features := ai.features
        quantity := ai.quantity
        brand_preference := ai.brand_preference
        corrected_query := ai.corrected_query
        tone := toneOf query
        ai_response := ai.suggested_response
        intent := ai.intent
        confidence := ai.confidence
        sub_intent := ai.sub_intent
        action := ai.action }

example : (parseUserInputFallback "100mm çap 200mm strok").diameter = some 100 := by decide
example : (parseUserInputFallback "100mm çap 200mm strok").stroke = some 200 := by decide
example : (parseUserInputFallback "Ø80 silindir").diameter = some 80 := by decide
example : (parseUserInputFallback "100x200 silindir 5 adet").diameter = some 100 := by decide
example : (parseUserInputFallback "100x200 silindir 5 adet").stroke = some 200 := by decide
example : (parseUserInputFallback "100x200 silindir 5 adet").quantity = some 5 := by decide
example : (parseUserInputFallback "hortum dostum").diameter = none := by decide
example : (parseUserInputFallback "hortum dostum").tone = "friendly" := by decide

end ConvSys

namespace ConvSys

/-- `ConversationContext.extracted_specs`. -/
structure Specs where
  diameter : Option Int
  stroke : Option Int
  features : List String
  quantity : Option Int
  brand_preference : Option String
  deriving Repr, DecidableEq

/-- The cleared specification dictionary used by the context-clear sites of
`generate_response` (lines 595-598, 626-629) and by `__init__`. -/
def emptySpecs : Specs :=
  { diameter := none, stroke := none, features := [], quantity := none,
    brand_preference := none }

/-- A partial specification: the `new_specs` argument of `update_specs`
(`None` fields are absent keys / `None` values). -/
structure SpecsDelta where
  diameter : Option Int := none
  stroke : Option Int := none
  features : Option (List String) := none
  quantity : Option Int := none
  brand_preference : Option String := none
  deriving Repr, DecidableEq

/-- `ConversationContext.update_specs` (lines 72-80): every non-`None` value
overwrites the stored one, except `features`, which is extended and
de-duplicated (`list(set(...))`; Python's set ordering is unspecified, so
only the element set of the result is meaningful). -/
def updateSpecs (s : Specs) (d : SpecsDelta) : Specs :=
  { diameter := match d.diameter with | some v => some v | none => s.diameter
    stroke := match d.stroke with | some v => some v | none => s.stroke
    features := match d.features with | some l => (s.features ++ l).dedup | none => s.features
    quantity := match d.quantity with | some v => some v | none => s.quantity
    brand_preference := match d.brand_preference with | some v => some v | none => s.brand_preference }

/-- `generate_response` lines 581-583: the non-`None` spec keys of the
parsed turn are merged into the accumulated context via `update_specs`,
whatever the turn's confidence is. -/
def mergeTurnSpecs (s : Specs) (p : Parsed) : Specs :=
  updateSpecs s
    { diameter := p.diameter, stroke := p.stroke, features := p.features,
      quantity := p.quantity, brand_preference := p.brand_preference }

/-- One turn's effect on `extracted_specs` inside `generate_response`: the
merge of line 583 always runs first; afterwards the branch taken may reset
the dictionary to the cleared one.  The only sites that clear are the
`search_direct` branch (lines 595-598), the keyword-search fallback branch
(lines 626-629) and the keyword branch of `_enhance_ai_response_with_data`
(lines 719-722); every other statement of the turn leaves `extracted_specs`
untouched.  `cleared` records whether one of those sites ran. -/
def turnSpecs (s : Specs) (p : Parsed) (cleared : Bool) : Specs :=
  let s1 := mergeTurnSpecs s p
  if cleared then emptySpecs else s1

/-- The accumulated specification after a sequence of turns. -/
def sessionSpecs (init : Specs) (turns : List (Parsed × Bool)) : Specs :=
  turns.foldl (fun s t => turnSpecs s t.1 t.2) init

end ConvSys

namespace ConvSys

/-! ### `search_exact_product` post-filter (lines 388-449) -/

/-- Python `\w` (word character), ASCII fragment. -/
def isWordChar (c : Char) : Bool := c.isAlphanum || c = '_'

/-- Maximal runs of word characters (worker: `cur` is the reversed current
run). -/
def wordRunsGo : List Char → List Char → List (List Char)
  | cur, [] => if cur.isEmpty then [] else [cur.reverse]
  | cur, c :: cs =>
      if isWordChar c then wordRunsGo (c :: cur) cs
      else if cur.isEmpty then wordRunsGo [] cs
      else cur.reverse :: wordRunsGo [] cs

/-- Maximal runs of word characters of a string. -/
def wordRuns (l : List Char) : List (List Char) := wordRunsGo [] l

/-- `re.findall(r'\b\d+\b', name)`: the standalone numeric tokens, i.e. the
maximal word-character runs consisting only of digits. -/
def numericTokens (name : List Char) : List (List Char) :=
  (wordRuns name).filter (fun r => r.all Char.isDigit)

/-- `str(n)` as a character list. -/
def natToken (n : Nat) : List Char := (toString n).toList

/-- The position-finding loop of the post-filter (lines 413-419): scan the
numeric tokens, recording the first index equal to `str(diameter)` and —
`elif` — the first remaining index equal to `str(stroke)`; `-1` when never
set. -/
def dsGo (D S : List Char) : Nat → Int → Int → List (List Char) → Int × Int
  | _, dp, sp, [] => (dp, sp)
  | i, dp, sp, n :: ns =>
      if n = D ∧ dp = -1 then dsGo D S (i + 1) (Int.ofNat i) sp ns
      else if n = S ∧ sp = -1 then dsGo D S (i + 1) dp (Int.ofNat i) ns
      else dsGo D S (i + 1) dp sp ns

def dsPositions (D S : List Char) (tokens : List (List Char)) : Int × Int :=
  dsGo D S 0 (-1) (-1) tokens

/-- The POST-FILTER of `search_exact_product` on one fetched row (lines
392-426): both dimensions must occur as standalone numeric tokens, and with
three or more numeric tokens the recorded diameter/stroke positions must be
adjacent (`abs(diameter_pos - stroke_pos) > 1` rejects). -/
def acceptProduct (diameter stroke : Nat) (name : String) : Bool :=
  let numbers := numericTokens (name.toList.map pyUpper)
  let hasD := numbers.contains (natToken diameter)
  let hasS := numbers.contains (natToken stroke)
  if ¬(hasD ∧ hasS) then false
  else if 3 ≤ numbers.length then
    let ps := dsPositions (natToken diameter) (natToken stroke) numbers
    if 1 < (ps.1 - ps.2).natAbs then false else true
  else true

/-- `search_exact_product`, restricted to which fetched rows survive the
post-filter (the SQL pre-query and the score-based reordering of lines
428-449 do not change membership of a name in the result). -/
def searchExactProductFilter (diameter stroke : Nat) (rows : List String) : List String :=
  rows.filter (acceptProduct diameter stroke)

example : acceptProduct 100 200 "ANS 100* 200 SIL" = true := by decide
example : acceptProduct 100 200 "100-50-200-XYZ" = false := by decide
example : acceptProduct 100 200 "SIL 1000x200" = false := by decide
example : numericTokens ("100-50-200-XYZ".toList) = ["100".toList, "50".toList, "200".toList] := by decide

end ConvSys

namespace ConvSys

/-! ### `get_stroke_options` (conversation_system.py lines 306-350) and
`_get_diameter_options` (progressive_inquiry_system.py lines 200-256) -/

/-- One row fetched for the options queries: `(malzeme_adi, current_stock,
id)`.  The SQL restricts to `current_stock > 0` rows; the rows are an input
since the catalog store is external. -/
structure CatalogRow where
  name : String
  stock : Int
  id : Int
  deriving Repr, DecidableEq

/-- One dict value of the `strokes` map built by `get_stroke_options`. -/
structure StrokeEntry where
  total_stock : Int
  products : List CatalogRow
  deriving Repr, DecidableEq

/-- The `stroke_patterns` of `get_stroke_options` for a given diameter,
applied to the uppercased product name: `rf'{diameter}[*x×](\d+)'`,
`rf'(\d+)[*x×]\s*{diameter}'`, `rf'{diameter}\s*/\s*(\d+)'`. -/
def strokeOptionPatterns (diameter : Nat) : List (List PatItem) :=
  [ [.lit (natToken diameter), .cls ['*', 'x', '×'], .digits],
    [.digits, .cls ['*', 'x', '×'], .ws, .lit (natToken diameter)],
    [.lit (natToken diameter), .ws, .lit ['/'], .ws, .digits] ]

/-- `strokes[s]` insertion/update (lines 337-344): a fresh key starts from
`total_stock = 0` and accumulates, appending the product. -/
def addStrokeEntry (m : List (Nat × StrokeEntry)) (s : Nat) (row : CatalogRow) :
    List (Nat × StrokeEntry) :=
  if m.any (fun p => p.1 = s) then
    m.map (fun p =>
      if p.1 = s then
        (p.1, { total_stock := p.2.total_stock + row.stock,
                products := p.2.products ++ [row] })
      else p)
  else m ++ [(s, { total_stock := row.stock, products := [row] })]

/-- One row's effect on the `strokes` map (the body of the row loop of
`get_stroke_options`): the first matching pattern's capture is the stroke
value; a capture equal to the queried diameter is skipped
(`if s != diameter`), and the per-row pattern loop `break`s after the first
matching pattern either way. -/
def strokeOptionsStep (diameter : Nat) (m : List (Nat × StrokeEntry))
    (row : CatalogRow) : List (Nat × StrokeEntry) :=
  match firstPatternCapture (strokeOptionPatterns diameter) (row.name.toList.map pyUpper) with
  | some s => if s ≠ diameter then addStrokeEntry m s row else m
  | none => m

/-- `B2BConversationSystem.get_stroke_options`. -/
def getStrokeOptions (diameter : Nat) (rows : List CatalogRow) :
    List (Nat × StrokeEntry) :=
  rows.foldl (strokeOptionsStep diameter) []

/-- The per-row diameter extraction of `_get_diameter_options` (lines
231-250): the four patterns `rf'(\d+)[*x×]{stroke}'`, `rf'(\d+)/{stroke}'`,
`r'Ø(\d+)'`, `r'(\d+)\s*(?:ÇAP|ÇAPLI|MM\s*ÇAP)'` are tried in order on the
uppercased name and the first capture of the first matching pattern wins
(the `ÇAPLI` alternative is subsumed by `ÇAP`, which the engine tries
first). -/
def diameterCapture (stroke : Nat) (nameUpper : List Char) : Option Nat :=
  match searchFrom [.digits, .cls ['*', 'x', '×'], .lit (natToken stroke)] nameUpper with
  | some (v :: _) => some v
  | _ =>
    match searchFrom [.digits, .lit ['/'], .lit (natToken stroke)] nameUpper with
    | some (v :: _) => some v
    | _ =>
      match searchFrom [.lit ['Ø'], .digits] nameUpper with
      | some (v :: _) => some v
      | _ =>
        match searchAltFrom
            [ [.digits, .ws, .lit "ÇAP".toList],
              [.digits, .ws, .lit "MM".toList, .ws, .lit "ÇAP".toList] ] nameUpper with
        | some (v :: _) => some v
        | _ => none

/-- The `diameter_options` insertion/update of `_get_diameter_options`
(lines 246-249).  NOTE the source stores `diameter_value` — not the row's
stock — when a key is first inserted (`diameter_options[diameter_key] =
diameter_value`), while later rows for the same key add their stock. -/
def addDiameterEntry (m : List (String × Int)) (v : Nat) (stock : Int) :
    List (String × Int) :=
  let key := s!"{v}mm çap"
  if m.any (fun p => p.1 = key) then
    m.map (fun p => if p.1 = key then (p.1, p.2 + stock) else p)
  else m ++ [(key, (v : Int))]

/-- `ProgressiveInquirySystem._get_diameter_options`: rows are the fetched
`(malzeme_adi, stock)` pairs (the SQL keeps in-stock rows whose name
contains the stroke digits). -/
def getDiameterOptions (stroke : Nat) (rows : List (String × Int)) :
    List (String × Int) :=
  rows.foldl
    (fun m row =>
      match diameterCapture stroke (row.1.toList.map pyUpper) with
      | some v => addDiameterEntry m v row.2
      | none => m)
    []

example :
    getStrokeOptions 100 [⟨"ANS 100*200 SIL", 5, 1⟩] =
      [(200, ⟨5, [⟨"ANS 100*200 SIL", 5, 1⟩]⟩)] := by decide
example : getStrokeOptions 100 [⟨"SIL 100*100 AMORT", 5, 1⟩] = [] := by decide
example :
    getDiameterOptions 200 [("ANS 100*200 SIL", 5)] = [("100mm çap", 100)] := by decide
example :
    getDiameterOptions 200 [("ANS 100*200 SIL", 5), ("MAG 100*200 SIL", 7)] =
      [("100mm çap", 107)] := by decide

end ConvSys

namespace ConvSys

/-! ### Order flow: `handle_quantity_input` (lines 1171-1241) and
`_handle_order_creation` (lines 811-858) -/

/-- Maximal digit runs (worker, mirroring `re.findall(r'\d+', s)`). -/
def digitRunsGo : List Char → List Char → List (List Char)
  | cur, [] => if cur.isEmpty then [] else [cur.reverse]
  | cur, c :: cs =>
      if c.isDigit then digitRunsGo (c :: cur) cs
      else if cur.isEmpty then digitRunsGo [] cs
      else cur.reverse :: digitRunsGo [] cs

/-- `re.findall(r'\d+', s)`: every maximal digit run of `s`. -/
def digitRuns (s : String) : List (List Char) := digitRunsGo [] s.toList

/-- `int(numbers[0])` after `numbers = re.findall(r'\d+', s)`. -/
def firstNumber (s : String) : Option Nat := (digitRuns s).head?.map digitsVal

/-- The dict-shaped `current_order` (`{'id', 'malzeme_kodu', 'malzeme_adi',
'current_stock'}`) that every pinning site of the modeled flows writes
(lines 682, 792, 946, 1021, 1109). -/
structure PinnedOrder where
  id : Int
  malzeme_kodu : String
  malzeme_adi : String
  current_stock : Int
  deriving Repr, DecidableEq

/-- One turn's outcome for the quantity handlers: the reply, the resulting
`conversation_stage`, and the quantity of the order written by `save_order`
when one was written. -/
structure QtyOutcome where
  reply : String
  stage : String
  saved : Option Int
  deriving Repr, DecidableEq

/-- `create_final_order_confirmation` for a dict-shaped product (no
`price` key → the quoted-later placeholders). -/
def createFinalOrderConfirmation (hourNow : Nat) (quantity : Int)
    (product : PinnedOrder) : String :=
  let deliveryInfo :=
    if hourNow < 16 then "📦 **Bugün kargoya verilecek**"
    else "📦 **Yarın kargoya verilecek** (16:00 sonrası sipariş)"
  "✅ **SİPARİŞİNİZ ALINDI!**\n\n📋 **Sipariş Detayları:**\n🔸 Ürün: " ++
    product.malzeme_adi ++ "\n🔸 Ürün Kodu: " ++ product.malzeme_kodu ++
    "\n🔸 Adet: " ++ toString quantity ++
    "\n🔸 Birim Fiyat: Fiyat sorulacak\n🔸 Toplam: Fiyat sorulacak\n\n⏰ **Kargo Bilgisi:**\n" ++
    deliveryInfo ++
    "\n\n🎯 **Teslim Süreci:**\n• 16:00'a kadar olan siparişler aynı gün kargoya verilir\n• 16:00'dan sonraki siparişler ertesi gün kargoya verilir\n\n📞 Herhangi bir sorun için bize ulaşabilirsiniz.\n**Teşekkürler! 🙏**"

/-- Lines 1196-1205: the quantity the method works with — the oracle's
`extracted_quantity` when truthy and positive, else the first digit run of
the text (`re.findall(r'\d+', ...)[0]`), else no quantity at all. -/
def resolveQuantity (oq : Option Int) (qstr : String) : Option Int :=
  match oq with
  | some v => if v ≤ 0 then (firstNumber qstr).map Int.ofNat else some v
  | none => (firstNumber qstr).map Int.ofNat

/-- `B2BConversationSystem.handle_quantity_input` for a dict-shaped pinned
order.  Inputs standing for external collaborators: `oracle` is
`openrouter_client.extract_quantity` (`.error` = it raised),
`actualStock` is what `get_actual_stock` reads from the inventory table,
`saveOk` is whether `save_order`'s insert succeeds, `hourNow` feeds the
dispatch-cutoff text of `create_final_order_confirmation`.

Control flow mirrored from the source: a falsy or non-positive oracle
quantity falls back to the first digit run of the text; a zero live stock
hits line 1211, which reads `product['name']` — a key the dict shape does
not have — so the lookup raises and control lands in the `except` branch;
that branch re-extracts a number and, when it is positive, retries the
whole method on the cleaned number (`fuel` bounds the retry depth: Python
recursion stops at the interpreter's limit, whose `RecursionError` the bare
inner `except` turns into the line-1241 re-prompt, which exhausted fuel
returns directly). -/
def handleQuantityInput (fuel : Nat) (oracle : Except Unit (Option Int))
    (qstr : String) (currentOrder : Option PinnedOrder) (actualStock : Int)
    (saveOk : Bool) (hourNow : Nat) (stage : String) : QtyOutcome :=
  match currentOrder with
  | none => ⟨"Ürün seçimi bulunamadı. Lütfen tekrar başlayın.", stage, none⟩
  | some product =>
    match oracle with
    | .error _ =>
        -- the `except` branch (lines 1227-1241)
        match firstNumber qstr with
        | some n =>
            if (n : Int) ≤ 0 then ⟨"❓ Lütfen 1'den büyük bir sayı belirtin.", stage, none⟩
            else
              match fuel with
              | 0 => ⟨"❓ Lütfen adet sayısını net bir şekilde belirtin.", stage, none⟩
              | fuel' + 1 =>
                  handleQuantityInput fuel' oracle (toString n) (some product)
                    actualStock saveOk hourNow stage
        | none => ⟨"❓ Kaç adet istediğinizi belirtin. (Örn: 5, 10 adet, 3 tane)", stage, none⟩
    | .ok oq =>
        match resolveQuantity oq qstr with
        | none =>
            ⟨"❓ Kaç adet istediğinizi anlayamadım. Lütfen sayı belirtin. (Örn: 5, 10 adet, 3 tane)",
             stage, none⟩
        | some q =>
            if actualStock = 0 then
              -- line 1211 raises KeyError('name') for the dict shape → `except` branch
              match firstNumber qstr with
              | some n =>
                  if (n : Int) ≤ 0 then ⟨"❓ Lütfen 1'den büyük bir sayı belirtin.", stage, none⟩
                  else
                    match fuel with
                    | 0 => ⟨"❓ Lütfen adet sayısını net bir şekilde belirtin.", stage, none⟩
                    | fuel' + 1 =>
                        handleQuantityInput fuel' oracle (toString n) (some product)
                          actualStock saveOk hourNow stage
              | none => ⟨"❓ Kaç adet istediğinizi belirtin. (Örn: 5, 10 adet, 3 tane)", stage, none⟩
            else if actualStock < q then
              ⟨"⚠️ Stokta sadece " ++ toString actualStock ++ " adet mevcut. " ++
                 toString actualStock ++ " adet için sipariş verebilirsiniz.", stage, none⟩
            else if saveOk then
              ⟨createFinalOrderConfirmation hourNow q product, "order_completed", some q⟩
            else ⟨"❌ Sipariş kaydedilemedi. Lütfen tekrar deneyiniz.", stage, none⟩

end ConvSys

namespace ConvSys

/-- Outcome of `_handle_order_creation`: the reply, the resulting
`conversation_stage`, and the quantity stored into the pending order (the
method never calls `save_order`; persistence happens only after an explicit
confirmation in a later turn). -/
structure OrderCreationOutcome where
  reply : String
  stage : String
  orderQuantity : Option Int
  deriving Repr, DecidableEq

/-- `B2BConversationSystem._handle_order_creation` (lines 811-858), reached
from `_enhance_ai_response_with_data` when the session is in
`order_creation` and the turn's intent is `order_intent`.  The stock the
method compares against is `current_order['current_stock']` — the snapshot
recorded when the product was pinned.  No database read happens in this
method: `dbLiveStock`, the inventory table's value at this turn, is
deliberately a parameter the body never reads, which is exactly the
source's behavior. -/
def handleOrderCreation (_dbLiveStock : Int) (currentOrder : Option PinnedOrder)
    (parsedQuantity : Option Int) (tone : String) (stage : String) :
    OrderCreationOutcome :=
  match currentOrder with
  | none => ⟨"Sipariş bilgisi bulunamadı. Lütfen yeniden başlayın.", stage, none⟩
  | some o =>
    let askAgain : OrderCreationOutcome :=
      if tone = "friendly" then
        ⟨"Dostum, " ++ o.malzeme_adi ++ " için kaç adet istediğini söyleyebilir misin?\n\n💡 Örnek: '10 adet' veya '25 tane'",
         stage, none⟩
      else
        ⟨o.malzeme_adi ++ " için kaç adet sipariş etmek istiyorsunuz?\n\n💡 Örnek: '10 adet' veya '25 tane'",
         stage, none⟩
    match parsedQuantity with
    | none => askAgain
    | some q =>
        if q = 0 then askAgain  -- `if quantity:` — Python truthiness
        else
          let stockAmount := o.current_stock
          if stockAmount < q then
            if tone = "friendly" then
              ⟨"❌ Maalesef dostum, " ++ o.malzeme_kodu ++ " için sadece " ++
                 toString stockAmount ++ " adet stokumuz var. Daha az miktar istersen hazırlayabilirim.",
               stage, none⟩
            else
              ⟨"❌ Üzgünüm, " ++ o.malzeme_kodu ++ " için mevcut stok " ++
                 toString stockAmount ++ " adet. Lütfen stok miktarının altında bir değer belirtin.",
               stage, none⟩
          else
            let reply :=
              if tone = "friendly" then
                "✅ Harika dostum! Sipariş özeti:\n\n📦 **" ++ o.malzeme_adi ++
                  "**\n🔢 Ürün Kodu: " ++ o.malzeme_kodu ++ "\n📊 Miktar: " ++ toString q ++
                  " adet\n\n💬 Siparişi onaylıyor musun?"
              else
                "✅ Sipariş özeti hazırlandı:\n\n📦 **" ++ o.malzeme_adi ++
                  "**\n🔢 Ürün Kodu: " ++ o.malzeme_kodu ++ "\n📊 Miktar: " ++ toString q ++
                  " adet\n\n💬 Siparişi onaylamak için 'evet' yazın."
            ⟨reply, "order_confirmation", some q⟩

end ConvSys

namespace ConvSys

/-! ### The `action = search_direct` turn (`generate_response` lines
571-603 plus `_generate_structured_response` lines 860-906) -/

/-- A product dict built by `search_keyword_products` (brand, price and
match_score are the constants of lines 550-558). -/
structure Product where
  id : Int
  name : String
  urun_kodu : String
  stock : Int
  deriving Repr, DecidableEq

/-- The slice of `ConversationContext` a `search_direct` turn touches. -/
structure SDContext where
  specs : Specs
  stage : String
  selected_products : List Product
  user_tone : String
  history : List String
  deriving Repr, DecidableEq

/-- The query handed to `search_keyword_products` in the `search_direct`
branch (lines 868-870): the oracle's corrected query when truthy, else the
stripped raw utterance. -/
def searchDirectQuery (parsed : Parsed) (userInput : String) : String :=
  match parsed.corrected_query with
  | some c => if c = "" then userInput.trim else c
  | none => userInput.trim

/-- A turn of `generate_response` whose extraction classified the utterance
as `action = 'search_direct'`: history/tone/spec merge (lines 577-583),
then the context clear and stage reset of lines 594-600, then the direct
keyword search of `_generate_structured_response` (lines 863-906).
`kwSearch` is `search_keyword_products` (external catalog); `phone` is
`context.phone_number`. -/
def generateResponseSearchDirect (ctx : SDContext) (parsed : Parsed)
    (userInput : String) (kwSearch : String → List Product)
    (phone : Option String) : SDContext × String :=
  let ctx1 := { ctx with history := ctx.history ++ [userInput],
                         user_tone := parsed.tone,
                         specs := mergeTurnSpecs ctx.specs parsed }
  let ctx2 := { ctx1 with specs := emptySpecs, stage := "initial" }
  let products := kwSearch (searchDirectQuery parsed userInput)
  match products with
  | [] =>
      (ctx2,
       "❌ '" ++ userInput ++ "' için ürün bulunamadı.\n\n💡 Farklı anahtar kelimeler deneyebilir veya müşteri temsilcimizle iletişime geçebilirsiniz.")
  | [p] =>
      let ctx3 := { ctx2 with selected_products := [p] }
      let head := "✅ '" ++ userInput ++ "' için ürün bulundu:\n\n📦 **" ++ p.name ++
        "**\n🏷️ Ürün Kodu: " ++ p.urun_kodu ++ "\n"
      let reply :=
        if p.stock ≤ 0 then
          head ++ "⚠️ Stok durumu: " ++ toString p.stock ++
            " adet (Stokta yok)\n\n📝 Bu ürün şu an stokta bulunmamaktadır. Tedarik süresi ve fiyat bilgisi için müşteri temsilcimizle iletişime geçebilirsiniz."
        else
          head ++ "📊 Stok: " ++ toString p.stock ++
            " adet\n💰 Fiyat: Müşteri temsilcimizden öğrenebilirsiniz"
      (ctx3, reply)
  | ps =>
      let ctx3 := { ctx2 with selected_products := ps }
      let phoneStr := match phone with
        | some ph => if ph = "" then "user" else ph
        | none => "user"
      (ctx3,
       "✅ '" ++ userInput ++ "' için " ++ toString ps.length ++
         " ürün buldum:\n\n🔗 Ürünleri görmek için: https://fired-sq-remedies-cheapest.trycloudflare.com/whatsapp/products/" ++
         phoneStr)

end ConvSys

namespace ConvSys

/-! ### Theorems -/

/-- C3: for every utterance, when the oracle call (or its JSON decoding)
raises, `parse_user_input` returns exactly the deterministic regex
extraction result, and that fallback result's confidence field is the
constant 0.6. -/
theorem C3_extractor_never_throws (q e : String) :
    parseUserInput (.error e) q = parseUserInputFallback q ∧
    (parseUserInputFallback q).confidence = 0.6 :=
  ⟨rfl, rfl⟩

/-- Unfolding equation: the diameter field computed by `parse_user_input`
on a successful oracle call. -/
lemma parseUserInput_ok_diameter (ai : AIExtraction) (q : String) :
    (parseUserInput (.ok ai) q).diameter =
      (let fb := parseUserInputFallback q
       let d1 := if truthyInt fb.diameter && !truthyInt ai.diameter then fb.diameter
                 else ai.diameter
       if overBound d1 1000 then fb.diameter else d1) := rfl

/-- Unfolding equation: the stroke field computed by `parse_user_input` on
a successful oracle call. -/
lemma parseUserInput_ok_stroke (ai : AIExtraction) (q : String) :
    (parseUserInput (.ok ai) q).stroke =
      (let fb := parseUserInputFallback q
       let s1 := if truthyInt fb.stroke && !truthyInt ai.stroke then fb.stroke
                 else ai.stroke
       if overBound s1 2000 then fb.stroke else s1) := rfl

/-- A truthy oracle diameter within the sanity bound survives
reconciliation unchanged. -/
lemma oracle_diameter_kept (ai : AIExtraction) (q : String) (v : Int)
    (hv : ai.diameter = some v) (h0 : v ≠ 0) (hle : v ≤ 1000) :
    (parseUserInput (.ok ai) q).diameter = some v := by
  have hnb : overBound (some v) 1000 = false := by
    simp [overBound, not_lt.mpr hle]
  rw [parseUserInput_ok_diameter]
  simp [hv, truthyInt, h0, hnb]

/-- A truthy oracle diameter beyond the sanity bound is replaced by the
regex fallback's diameter. -/
lemma oracle_diameter_gated (ai : AIExtraction) (q : String) (v : Int)
    (hv : ai.diameter = some v) (hgt : 1000 < v) :
    (parseUserInput (.ok ai) q).diameter = (parseUserInputFallback q).diameter := by
  have h0 : v ≠ 0 := by omega
  have hb : overBound (some v) 1000 = true := by
    simp [overBound, hgt, h0]
  rw [parseUserInput_ok_diameter]
  simp [hv, truthyInt, h0, hb]

/-- A truthy oracle stroke within the sanity bound survives reconciliation
unchanged. -/
lemma oracle_stroke_kept (ai : AIExtraction) (q : String) (w : Int)
    (hw : ai.stroke = some w) (h0 : w ≠ 0) (hle : w ≤ 2000) :
    (parseUserInput (.ok ai) q).stroke = some w := by
  have hnb : overBound (some w) 2000 = false := by
    simp [overBound, not_lt.mpr hle]
  rw [parseUserInput_ok_stroke]
  simp [hw, truthyInt, h0, hnb]

/-- A truthy oracle stroke beyond the sanity bound is replaced by the regex
fallback's stroke. -/
lemma oracle_stroke_gated (ai : AIExtraction) (q : String) (w : Int)
    (hw : ai.stroke = some w) (hgt : 2000 < w) :
    (parseUserInput (.ok ai) q).stroke = (parseUserInputFallback q).stroke := by
  have h0 : w ≠ 0 := by omega
  have hb : overBound (some w) 2000 = true := by
    simp [overBound, hgt, h0]
  rw [parseUserInput_ok_stroke]
  simp [hw, truthyInt, h0, hb]

/-- C1 counterexample: the oracle returns the non-null diameter `0`
(which does not exceed 1000), yet the final parsed diameter is the regex
value 100, not the oracle's 0 — Python truthiness treats the non-null
oracle value 0 as absent, so the deterministic fallback overrides it. -/
theorem C1_counterexample :
    (parseUserInput
        (.ok ⟨some 0, none, none, none, none, none, "", "spec_query", 0.9, none, none⟩)
        "100 çap").diameter = some 100 ∧
    (some (100 : Int)) ≠ (some (0 : Int)) ∧ ¬(1000 < (0 : Int)) := by
  refine ⟨by decide, by decide, by decide⟩

/-- C1 (amended): for every utterance and oracle reply, if the oracle
returns a non-null **and nonzero** diameter `v`, the final parsed diameter
is `some v` unless `v` exceeds 1000, in which case it equals the regex
fallback's diameter (`none` when the fallback found nothing); symmetrically
for stroke with bound 2000.  (The original claim, stated for every non-null
value, fails at the oracle value 0, which Python truthiness treats as
absent; the fallback fills exactly the null-or-zero fields.) -/
theorem C1_reconciliation_precedence (ai : AIExtraction) (q : String) :
    (∀ v : Int, ai.diameter = some v → v ≠ 0 →
      (v ≤ 1000 → (parseUserInput (.ok ai) q).diameter = some v) ∧
      (1000 < v →
        (parseUserInput (.ok ai) q).diameter = (parseUserInputFallback q).diameter)) ∧
    (∀ w : Int, ai.stroke = some w → w ≠ 0 →
      (w ≤ 2000 → (parseUserInput (.ok ai) q).stroke = some w) ∧
      (2000 < w →
        (parseUserInput (.ok ai) q).stroke = (parseUserInputFallback q).stroke)) := by
  constructor
  · intro v hv h0
    exact ⟨fun hle => oracle_diameter_kept ai q v hv h0 hle,
           fun hgt => oracle_diameter_gated ai q v hv hgt⟩
  · intro w hw h0
    exact ⟨fun hle => oracle_stroke_kept ai q w hw h0 hle,
           fun hgt => oracle_stroke_gated ai q w hw hgt⟩

/-- C1 witness: a concrete oracle reply with an implausible diameter (1500)
and a plausible stroke (80) on the utterance "60 çap": the diameter falls
back to the regex value, the stroke keeps the oracle's value. -/
theorem C1_witness :
    (parseUserInput
        (.ok ⟨some 1500, some 80, none, none, none, none, "", "spec_query", 0.9, none, none⟩)
        "60 çap").diameter = (parseUserInputFallback "60 çap").diameter ∧
    (parseUserInput
        (.ok ⟨some 1500, some 80, none, none, none, none, "", "spec_query", 0.9, none, none⟩)
        "60 çap").stroke = some 80 := by
  have h := C1_reconciliation_precedence
    ⟨some 1500, some 80, none, none, none, none, "", "spec_query", 0.9, none, none⟩ "60 çap"
  exact ⟨(h.1 1500 rfl (by decide)).2 (by decide), (h.2 80 rfl (by decide)).1 (by decide)⟩

end ConvSys

namespace ConvSys

/-- C5: feature accumulation is monotonic.  For any session prefix,
appending one turn that does not hit an explicit context-clear site
(direct accessory/keyword search or reset) can only grow the accumulated
feature set: `update_specs` extends `features` by union and every other
statement of a non-clearing turn leaves it untouched. -/
theorem C5_features_monotonic (init : Specs) (pre : List (Parsed × Bool))
    (p : Parsed) (x : String)
    (hx : x ∈ (sessionSpecs init pre).features) :
    x ∈ (sessionSpecs init (pre ++ [(p, false)])).features := by
  have hfold : sessionSpecs init (pre ++ [(p, false)]) =
      turnSpecs (sessionSpecs init pre) p false := by
    simp [sessionSpecs, List.foldl_append]
  rw [hfold]
  show x ∈ (mergeTurnSpecs (sessionSpecs init pre) p).features
  unfold mergeTurnSpecs updateSpecs
  cases hf : p.features with
  | none => simpa using hx
  | some l =>
      simp only [List.mem_dedup, List.mem_append]
      exact Or.inl hx

/-- C5 witness: a session that accumulated the feature "magnetic" keeps it
after a non-clearing turn that adds "cushioned". -/
theorem C5_witness :
    "magnetic" ∈
      (sessionSpecs ⟨none, none, ["magnetic"], none, none⟩
        ([] ++ [(⟨none, none, some ["cushioned"], none, none, none, "professional",
                  "", "spec_query", 0.9, none, none⟩, false)])).features :=
  C5_features_monotonic ⟨none, none, ["magnetic"], none, none⟩ [] _ "magnetic" (by decide)

/-- C6 counterexample: a field set to `some 100` (by a turn of confidence
0.95, and 100 passes the sanity bound 1000) is silently replaced by
`some 50` when a later extraction of confidence 0.6 is merged —
`update_specs` consults no confidence at all. -/
theorem C6_counterexample :
    (mergeTurnSpecs ⟨some 100, none, [], none, none⟩
        ⟨some 50, none, none, none, none, none, "professional", "", "spec_query",
         0.6, none, none⟩).diameter = some 50 ∧
    (some (50 : Int)) ≠ (some (100 : Int)) ∧
    (0.6 : ℚ) < 0.95 ∧ ¬(1000 < (100 : Int)) := by
  exact ⟨rfl, by decide, by norm_num, by decide⟩

/-- C6 (amended): the confidence-ordered no-overwrite invariant holds only
within a single turn's reconciliation: the 0.6-confidence deterministic
pass never replaces a non-null nonzero oracle diameter/stroke that passes
the sanity gate.  Across turns, `update_specs` overwrites any field for
which the later extraction carries a non-null value, whatever either
turn's confidence was (and leaves it alone when the later value is null). -/
theorem C6_confidence_overwrite (ai : AIExtraction) (q : String) (s : Specs)
    (p : Parsed) :
    (∀ v : Int, ai.diameter = some v → v ≠ 0 → v ≤ 1000 →
      (parseUserInput (.ok ai) q).diameter = some v) ∧
    (∀ w : Int, ai.stroke = some w → w ≠ 0 → w ≤ 2000 →
      (parseUserInput (.ok ai) q).stroke = some w) ∧
    (∀ v : Int, p.diameter = some v → (mergeTurnSpecs s p).diameter = some v) ∧
    (p.diameter = none → (mergeTurnSpecs s p).diameter = s.diameter) := by
  refine ⟨fun v hv h0 hle => oracle_diameter_kept ai q v hv h0 hle,
          fun w hw h0 hle => oracle_stroke_kept ai q w hw h0 hle,
          fun v hv => ?_, fun hv => ?_⟩
  · simp [mergeTurnSpecs, updateSpecs, hv]
  · simp [mergeTurnSpecs, updateSpecs, hv]

/-- C6 witness: the oracle's diameter 120 (confidence 0.95) survives the
regex pass on "hortum", and a later low-confidence turn's non-null value 50
does overwrite a stored 100. -/
theorem C6_witness :
    (parseUserInput
        (.ok ⟨some 120, none, none, none, none, none, "", "spec_query", 0.95, none, none⟩)
        "hortum").diameter = some 120 ∧
    (mergeTurnSpecs ⟨some 100, none, [], none, none⟩
        ⟨some 50, none, none, none, none, none, "professional", "", "spec_query",
         0.6, none, none⟩).diameter = some 50 := by
  have h := C6_confidence_overwrite
    ⟨some 120, none, none, none, none, none, "", "spec_query", 0.95, none, none⟩
    "hortum" ⟨some 100, none, [], none, none⟩
    ⟨some 50, none, none, none, none, none, "professional", "", "spec_query",
     0.6, none, none⟩
  exact ⟨h.1 120 rfl (by decide) (by decide), h.2.2.1 50 rfl⟩

/-- C9: the diameter-options map does not hold aggregate stock.  With
stroke 200 and one in-stock row "ANS 100*200 SIL" of stock 5, the map's
value under "100mm çap" is 100 — the diameter value itself, not the stock
5 — because line 249 of `progressive_inquiry_system.py` writes
`diameter_options[diameter_key] = diameter_value` on first insertion (the
sibling `_get_stroke_options` writes the stock there); a second row of
stock 7 then yields 107 instead of the aggregate 12. -/
theorem C9_diameter_options_bug :
    getDiameterOptions 200 [("ANS 100*200 SIL", 5)] = [("100mm çap", 100)] ∧
    (100 : Int) ≠ 5 ∧
    getDiameterOptions 200 [("ANS 100*200 SIL", 5), ("MAG 100*200 SIL", 7)] =
      [("100mm çap", 107)] ∧
    (107 : Int) ≠ 5 + 7 := by
  exact ⟨by decide, by decide, by decide, by decide⟩

end ConvSys

namespace ConvSys

/-- Keys appearing after an `addStrokeEntry` are the inserted stroke or a
key that was already present. -/
lemma addStrokeEntry_keys (m : List (Nat × StrokeEntry)) (s : Nat)
    (row : CatalogRow) :
    ∀ e ∈ addStrokeEntry m s row, e.1 = s ∨ ∃ e' ∈ m, e'.1 = e.1 := by
  intro e he
  unfold addStrokeEntry at he
  by_cases h : m.any (fun p => p.1 = s)
  · rw [if_pos h] at he
    rcases List.mem_map.mp he with ⟨e', he', heq⟩
    right
    refine ⟨e', he', ?_⟩
    rw [← heq]
    by_cases hs : e'.1 = s <;> simp [hs]
  · rw [if_neg h] at he
    rcases List.mem_append.mp he with he | he
    · right; exact ⟨e, he, rfl⟩
    · left
      rcases List.mem_singleton.mp he with rfl
      rfl

/-- One row step of `get_stroke_options` never introduces a key equal to
the queried diameter. -/
lemma strokeOptionsStep_keys (d : Nat) (m : List (Nat × StrokeEntry))
    (row : CatalogRow) (hm : ∀ e ∈ m, e.1 ≠ d) :
    ∀ e ∈ strokeOptionsStep d m row, e.1 ≠ d := by
  intro e he
  unfold strokeOptionsStep at he
  split at he
  · split at he
    · rcases addStrokeEntry_keys _ _ _ e he with h | ⟨e', he', heq⟩
      · rw [h]; assumption
      · rw [← heq]; exact hm e' he'
    · exact hm e he
  · exact hm e he

/-- The fold of `get_stroke_options` preserves the no-diameter-key
invariant. -/
lemma getStrokeOptions_fold_keys (d : Nat) :
    ∀ (rows : List CatalogRow) (m : List (Nat × StrokeEntry)),
      (∀ e ∈ m, e.1 ≠ d) →
      ∀ e ∈ rows.foldl (strokeOptionsStep d) m, e.1 ≠ d := by
  intro rows
  induction rows with
  | nil => intro m hm e he; exact hm e he
  | cons row rest ih =>
      intro m hm e he
      rw [List.foldl_cons] at he
      exact ih (strokeOptionsStep d m row) (strokeOptionsStep_keys d m row hm) e he

/-- C10: for every diameter, the stroke-options map returned by
`get_stroke_options` never contains a stroke key equal to the queried
diameter itself — the extraction loop skips a captured stroke equal to the
diameter, so square variants are never offered. -/
theorem C10_no_stroke_equal_diameter (d : Nat) (rows : List CatalogRow)
    (e : Nat × StrokeEntry) (he : e ∈ getStrokeOptions d rows) : e.1 ≠ d :=
  getStrokeOptions_fold_keys d rows [] (by intro e' he'; cases he') e he

/-- C10 witness: for diameter 100 the row "ANS 100*200 SIL" contributes the
stroke key 200, and the theorem yields 200 ≠ 100 (the square row
"SIL 100*100" contributes nothing at all). -/
theorem C10_witness :
    ((200, (⟨5, [⟨"ANS 100*200 SIL", 5, 1⟩]⟩ : StrokeEntry)) : Nat × StrokeEntry).1 ≠ 100 :=
  C10_no_stroke_equal_diameter 100 [⟨"ANS 100*200 SIL", 5, 1⟩] _ (by decide)

/-- C8: `handle_quantity_input` does NOT reject every non-positive
quantity.  With the oracle finding no quantity, the input "0", a pinned
product with live stock 10 and a succeeding insert, the digit-run fallback
of the success path (lines 1199-1203) adopts the quantity 0 without the
positivity re-check the `except` branch has, so an order of quantity 0 is
saved and the session advances to `order_completed`. -/
theorem C8_zero_quantity_order_saved :
    (handleQuantityInput 5 (.ok none) "0"
        (some ⟨7, "K100", "ANS 100*200 SIL", 10⟩) 10 true 10 "order_creation").saved
      = some 0 ∧
    (handleQuantityInput 5 (.ok none) "0"
        (some ⟨7, "K100", "ANS 100*200 SIL", 10⟩) 10 true 10 "order_creation").stage
      = "order_completed" ∧
    ¬(0 < (0 : Int)) := by
  exact ⟨by decide, by decide, by decide⟩

end ConvSys

namespace ConvSys

/-- On the paths that re-enter the `except` branch (the oracle raised, or
the zero-stock `KeyError` of line 1211), `handle_quantity_input` never
writes an order and never changes the stage, at every retry depth. -/
lemma hqi_no_transition (fuel : Nat) :
    ∀ (oracle : Except Unit (Option Int)) (qstr : String) (po : PinnedOrder)
      (stock : Int) (saveOk : Bool) (hourNow : Nat) (st : String),
      oracle = .error () ∨ stock = 0 →
      ((handleQuantityInput fuel oracle qstr (some po) stock saveOk hourNow st).stage = st ∧
       (handleQuantityInput fuel oracle qstr (some po) stock saveOk hourNow st).saved = none) := by
  induction fuel with
  | zero =>
      intro oracle qstr po stock saveOk hourNow st hcase
      rcases hcase with rfl | rfl
      · rw [handleQuantityInput.eq_def]; dsimp only
        cases firstNumber qstr with
        | none => exact ⟨rfl, rfl⟩
        | some n => by_cases hn : (n : Int) ≤ 0 <;> simp [hn]
      · cases oracle with
        | error e =>
            cases e
            rw [handleQuantityInput.eq_def]; dsimp only
            cases firstNumber qstr with
            | none => exact ⟨rfl, rfl⟩
            | some n => by_cases hn : (n : Int) ≤ 0 <;> simp [hn]
        | ok oq =>
            rw [handleQuantityInput.eq_def]; dsimp only
            cases resolveQuantity oq qstr with
            | none => exact ⟨rfl, rfl⟩
            | some q =>
                simp only [if_pos rfl]
                cases firstNumber qstr with
                | none => exact ⟨rfl, rfl⟩
                | some n => by_cases hn : (n : Int) ≤ 0 <;> simp [hn]
  | succ fuel ih =>
      intro oracle qstr po stock saveOk hourNow st hcase
      rcases hcase with rfl | rfl
      · rw [handleQuantityInput.eq_def]; dsimp only
        cases firstNumber qstr with
        | none => exact ⟨rfl, rfl⟩
        | some n =>
            by_cases hn : (n : Int) ≤ 0
            · simp [hn]
            · simp only [if_neg hn]
              exact ih (.error ()) (toString n) po stock saveOk hourNow st (Or.inl rfl)
      · cases oracle with
        | error e =>
            cases e
            rw [handleQuantityInput.eq_def]; dsimp only
            cases firstNumber qstr with
            | none => exact ⟨rfl, rfl⟩
            | some n =>
                by_cases hn : (n : Int) ≤ 0
                · simp [hn]
                · simp only [if_neg hn]
                  exact ih (.error ()) (toString n) po 0 saveOk hourNow st (Or.inl rfl)
        | ok oq =>
            rw [handleQuantityInput.eq_def]; dsimp only
            cases resolveQuantity oq qstr with
            | none => exact ⟨rfl, rfl⟩
            | some q =>
                simp only [if_pos rfl]
                cases firstNumber qstr with
                | none => exact ⟨rfl, rfl⟩
                | some n =>
                    by_cases hn : (n : Int) ≤ 0
                    · simp [hn]
                    · simp only [if_neg hn]
                      exact ih (.ok oq) (toString n) po 0 saveOk hourNow st (Or.inr rfl)

/-- C4 counterexample: a quantity-capture turn routed through
`_handle_order_creation` ("5 adet" style input) with a pinned-stock
snapshot of 10 while the inventory's live stock has dropped to 3: the
requested quantity 5 exceeds the live stock 3, yet the session moves to
`order_confirmation` — the method consults only the pinned snapshot and
performs no live-stock re-fetch. -/
theorem C4_counterexample :
    (handleOrderCreation 3 (some ⟨7, "K100", "ANS 100*200 SIL", 10⟩) (some 5)
        "professional" "order_creation").stage = "order_confirmation" ∧
    (3 : Int) < 5 := by
  exact ⟨by decide, by decide⟩

/-- C4 (amended): a quantity-capture turn rejects a quantity exceeding the
stock **that the handler consults** — `handle_quantity_input` re-fetches
live stock and, when the requested quantity exceeds it, keeps the stage,
saves nothing and states the live count in its reply (when the live stock
is zero the out-of-stock path likewise keeps the stage and saves nothing);
a turn whose quantity-oracle raised also never saves or transitions;
`_handle_order_creation`, by contrast, compares against the stock snapshot
recorded when the product was pinned and, when the quantity exceeds that
snapshot, keeps the stage, saves nothing and states the snapshot count —
the original claim's guarantee against *live* stock fails there (see the
counterexample). -/
theorem C4_stock_bound_ordering :
    (∀ (fuel : Nat) (oq : Option Int) (qstr : String) (po : PinnedOrder) (stock : Int)
       (saveOk : Bool) (hourNow : Nat) (st : String) (q : Int),
       resolveQuantity oq qstr = some q → stock < q →
       (handleQuantityInput fuel (.ok oq) qstr (some po) stock saveOk hourNow st).stage = st ∧
       (handleQuantityInput fuel (.ok oq) qstr (some po) stock saveOk hourNow st).saved = none ∧
       (stock ≠ 0 → ∃ s1 s2,
          (handleQuantityInput fuel (.ok oq) qstr (some po) stock saveOk hourNow st).reply =
            s1 ++ toString stock ++ s2)) ∧
    (∀ (fuel : Nat) (qstr : String) (po : PinnedOrder) (stock : Int) (saveOk : Bool)
       (hourNow : Nat) (st : String),
       (handleQuantityInput fuel (.error ()) qstr (some po) stock saveOk hourNow st).stage = st ∧
       (handleQuantityInput fuel (.error ()) qstr (some po) stock saveOk hourNow st).saved = none) ∧
    (∀ (live : Int) (po : PinnedOrder) (q : Int) (tone st : String),
       q ≠ 0 → po.current_stock < q →
       (handleOrderCreation live (some po) (some q) tone st).stage = st ∧
       (handleOrderCreation live (some po) (some q) tone st).orderQuantity = none ∧
       ∃ s1 s2, (handleOrderCreation live (some po) (some q) tone st).reply =
         s1 ++ toString po.current_stock ++ s2) := by
  refine ⟨?_, ?_, ?_⟩
  · intro fuel oq qstr po stock saveOk hourNow st q hres hlt
    by_cases hstock : stock = 0
    · subst hstock
      obtain ⟨h1, h2⟩ :=
        hqi_no_transition fuel (.ok oq) qstr po 0 saveOk hourNow st (Or.inr rfl)
      exact ⟨h1, h2, fun hne => absurd rfl hne⟩
    · have hout :
          handleQuantityInput fuel (.ok oq) qstr (some po) stock saveOk hourNow st =
            ⟨"⚠️ Stokta sadece " ++ toString stock ++ " adet mevcut. " ++
               toString stock ++ " adet için sipariş verebilirsiniz.", st, none⟩ := by
        rw [handleQuantityInput.eq_def]; dsimp only
        rw [hres]
        dsimp only
        rw [if_neg hstock, if_pos hlt]
      rw [hout]
      refine ⟨rfl, rfl, fun _ => ?_⟩
      exact ⟨"⚠️ Stokta sadece ",
             " adet mevcut. " ++ toString stock ++ " adet için sipariş verebilirsiniz.",
             by simp [String.append_assoc]⟩
  · intro fuel qstr po stock saveOk hourNow st
    exact hqi_no_transition fuel (.error ()) qstr po stock saveOk hourNow st (Or.inl rfl)
  · intro live po q tone st h0 hlt
    by_cases ht : tone = "friendly"
    · have hout :
          handleOrderCreation live (some po) (some q) tone st =
            ⟨"❌ Maalesef dostum, " ++ po.malzeme_kodu ++ " için sadece " ++
               toString po.current_stock ++
               " adet stokumuz var. Daha az miktar istersen hazırlayabilirim.", st, none⟩ := by
        rw [handleOrderCreation.eq_def]; dsimp only
        rw [if_neg h0, if_pos hlt, if_pos ht]
      rw [hout]
      refine ⟨rfl, rfl,
        ⟨"❌ Maalesef dostum, " ++ po.malzeme_kodu ++ " için sadece ",
         " adet stokumuz var. Daha az miktar istersen hazırlayabilirim.",
         by simp [String.append_assoc]⟩⟩
    · have hout :
          handleOrderCreation live (some po) (some q) tone st =
            ⟨"❌ Üzgünüm, " ++ po.malzeme_kodu ++ " için mevcut stok " ++
               toString po.current_stock ++
               " adet. Lütfen stok miktarının altında bir değer belirtin.", st, none⟩ := by
        rw [handleOrderCreation.eq_def]; dsimp only
        rw [if_neg h0, if_pos hlt, if_neg ht]
      rw [hout]
      refine ⟨rfl, rfl,
        ⟨"❌ Üzgünüm, " ++ po.malzeme_kodu ++ " için mevcut stok ",
         " adet. Lütfen stok miktarının altında bir değer belirtin.",
         by simp [String.append_assoc]⟩⟩

/-- C4 witness (scenario D): requesting 15 of a product whose live stock is
10 keeps the stage at `order_creation`, saves nothing, and the reply states
the available 10. -/
theorem C4_witness :
    (handleQuantityInput 1 (.ok (some 15)) "15"
        (some ⟨7, "K100", "ANS 100*200 SIL", 10⟩) 10 true 10 "order_creation").stage
      = "order_creation" ∧
    (handleQuantityInput 1 (.ok (some 15)) "15"
        (some ⟨7, "K100", "ANS 100*200 SIL", 10⟩) 10 true 10 "order_creation").saved
      = none ∧
    ((10 : Int) ≠ 0 → ∃ s1 s2,
       (handleQuantityInput 1 (.ok (some 15)) "15"
          (some ⟨7, "K100", "ANS 100*200 SIL", 10⟩) 10 true 10 "order_creation").reply =
         s1 ++ toString (10 : Int) ++ s2) :=
  C4_stock_bound_ordering.1 1 (some 15) "15" ⟨7, "K100", "ANS 100*200 SIL", 10⟩ 10 true 10
    "order_creation" 15 (by decide) (by decide)

end ConvSys

namespace ConvSys

/-- Invariant of the position-finding loop of the post-filter: starting at
absolute position `i` into `full` with accumulators that are `-1` or valid
absolute positions of the diameter/stroke token, the loop returns `-1` or
valid positions; an accumulator already set is returned unchanged; a
diameter token present in the remainder guarantees a set diameter
position; and a stroke token present in the remainder can leave the stroke
position unset only when the two tokens coincide (the `elif` consumed it),
in which case the diameter position is set. -/
lemma dsGo_spec (D S : List Char) (full : List (List Char)) :
    ∀ (ns : List (List Char)) (i : Nat) (dp sp : Int),
      full.drop i = ns →
      (dp = -1 ∨ ∃ k : Nat, dp = (k : Int) ∧ full.get? k = some D) →
      (sp = -1 ∨ ∃ k : Nat, sp = (k : Int) ∧ full.get? k = some S) →
      ((dsGo D S i dp sp ns).1 = -1 ∨
         ∃ k : Nat, (dsGo D S i dp sp ns).1 = (k : Int) ∧ full.get? k = some D) ∧
      ((dsGo D S i dp sp ns).2 = -1 ∨
         ∃ k : Nat, (dsGo D S i dp sp ns).2 = (k : Int) ∧ full.get? k = some S) ∧
      (dp ≠ -1 → (dsGo D S i dp sp ns).1 = dp) ∧
      (sp ≠ -1 → (dsGo D S i dp sp ns).2 = sp) ∧
      (D ∈ ns → (dsGo D S i dp sp ns).1 ≠ -1) ∧
      (S ∈ ns → (dsGo D S i dp sp ns).2 = -1 →
         D = S ∧ (dsGo D S i dp sp ns).1 ≠ -1) := by
  intro ns
  induction ns with
  | nil =>
      intro i dp sp _ hdp hsp
      exact ⟨hdp, hsp, fun _ => rfl, fun _ => rfl,
             fun h => absurd h (List.not_mem_nil D),
             fun h => absurd h (List.not_mem_nil S)⟩
  | cons n ns ih =>
      intro i dp sp hdrop hdp hsp
      have hget : full.get? i = some n := by
        have h0 := List.getElem?_drop full i 0
        rw [hdrop] at h0
        simpa [List.get?_eq_getElem?] using h0.symm
      have hdrop' : full.drop (i + 1) = ns := by
        have h1 : full.drop (i + 1) = (full.drop i).drop 1 := by
          rw [List.drop_drop, Nat.add_comm]
        rw [h1, hdrop]
        rfl
      have hine : (Int.ofNat i) ≠ -1 := by
        rw [Int.ofNat_eq_natCast]; omega
      have hred : dsGo D S i dp sp (n :: ns) =
          if n = D ∧ dp = -1 then dsGo D S (i + 1) (Int.ofNat i) sp ns
          else if n = S ∧ sp = -1 then dsGo D S (i + 1) dp (Int.ofNat i) ns
          else dsGo D S (i + 1) dp sp ns := rfl
      by_cases h1 : n = D ∧ dp = -1
      · rw [hred, if_pos h1]
        have hdp' : (Int.ofNat i) = -1 ∨
            ∃ k : Nat, (Int.ofNat i) = (k : Int) ∧ full.get? k = some D :=
          Or.inr ⟨i, by rw [Int.ofNat_eq_natCast], by rw [← h1.1]; exact hget⟩
        obtain ⟨A, B, C, Cs, E, F⟩ := ih (i + 1) (Int.ofNat i) sp hdrop' hdp' hsp
        have hr1 : (dsGo D S (i + 1) (Int.ofNat i) sp ns).1 = Int.ofNat i := C hine
        refine ⟨A, B, fun hne => absurd h1.2 hne, Cs, fun _ => ?_, fun hS hr2 => ?_⟩
        · rw [hr1]; exact hine
        · rcases List.mem_cons.mp hS with hSn | hSns
          · exact ⟨by rw [← h1.1]; exact hSn.symm, by rw [hr1]; exact hine⟩
          · exact F hSns hr2
      · by_cases h2 : n = S ∧ sp = -1
        · rw [hred, if_neg h1, if_pos h2]
          have hsp' : (Int.ofNat i) = -1 ∨
              ∃ k : Nat, (Int.ofNat i) = (k : Int) ∧ full.get? k = some S :=
            Or.inr ⟨i, by rw [Int.ofNat_eq_natCast], by rw [← h2.1]; exact hget⟩
          obtain ⟨A, B, C, Cs, E, F⟩ := ih (i + 1) dp (Int.ofNat i) hdrop' hdp hsp'
          have hr2 : (dsGo D S (i + 1) dp (Int.ofNat i) ns).2 = Int.ofNat i := Cs hine
          refine ⟨A, B, C, fun hne => absurd h2.2 hne, fun hD => ?_, fun _ hr2' => ?_⟩
          · rcases List.mem_cons.mp hD with hDn | hDns
            · have hdpne : dp ≠ -1 := fun hdpe => h1 ⟨hDn.symm, hdpe⟩
              rw [C hdpne]; exact hdpne
            · exact E hDns
          · rw [hr2] at hr2'
            exact absurd hr2' hine
        · rw [hred, if_neg h1, if_neg h2]
          obtain ⟨A, B, C, Cs, E, F⟩ := ih (i + 1) dp sp hdrop' hdp hsp
          refine ⟨A, B, C, Cs, fun hD => ?_, fun hS hr2 => ?_⟩
          · rcases List.mem_cons.mp hD with hDn | hDns
            · have hdpne : dp ≠ -1 := fun hdpe => h1 ⟨hDn.symm, hdpe⟩
              rw [C hdpne]; exact hdpne
            · exact E hDns
          · rcases List.mem_cons.mp hS with hSn | hSns
            · have hspne : sp ≠ -1 := fun hspe => h2 ⟨hSn.symm, hspe⟩
              rw [Cs hspne] at hr2
              exact absurd hr2 hspne
            · exact F hSns hr2

end ConvSys

namespace ConvSys

/-- C2: every product name surviving the post-filter of
`search_exact_product` contains both requested dimensions as standalone
numeric tokens, and when the name holds three or more numeric tokens the
recorded diameter and stroke token positions are at distance at most one;
in particular `exactMatch(100, 200, …)` never returns "100-50-200-XYZ" but
does return "ANS 100*200 SIL" whenever the catalog produced it. -/
theorem C2_exact_match_rejection :
    (∀ (d s : Nat) (rows : List String) (name : String),
        name ∈ searchExactProductFilter d s rows →
        (natToken d ∈ numericTokens (name.toList.map pyUpper) ∧
         natToken s ∈ numericTokens (name.toList.map pyUpper)) ∧
        (3 ≤ (numericTokens (name.toList.map pyUpper)).length →
          ∃ i j : Nat,
            (numericTokens (name.toList.map pyUpper)).get? i = some (natToken d) ∧
            (numericTokens (name.toList.map pyUpper)).get? j = some (natToken s) ∧
            ((i : Int) - (j : Int)).natAbs ≤ 1)) ∧
    (∀ rows : List String, "100-50-200-XYZ" ∉ searchExactProductFilter 100 200 rows) ∧
    (∀ rows : List String, "ANS 100*200 SIL" ∈ rows →
        "ANS 100*200 SIL" ∈ searchExactProductFilter 100 200 rows) := by
  refine ⟨?_, ?_, ?_⟩
  · intro d s rows name hmem
    have hacc : acceptProduct d s name = true := (List.mem_filter.mp hmem).2
    unfold acceptProduct at hacc
    dsimp only at hacc
    split at hacc
    · exact absurd hacc (by simp)
    · next hno =>
        have hds := not_not.mp hno
        have hD : natToken d ∈ numericTokens (name.toList.map pyUpper) := by
          simpa using hds.1
        have hS : natToken s ∈ numericTokens (name.toList.map pyUpper) := by
          simpa using hds.2
        refine ⟨⟨hD, hS⟩, fun h3 => ?_⟩
        rw [if_pos h3] at hacc
        split at hacc
        · exact absurd hacc (by simp)
        · next hadj =>
            obtain ⟨A, B, _, _, E, F⟩ :=
              dsGo_spec (natToken d) (natToken s)
                (numericTokens (name.toList.map pyUpper))
                (numericTokens (name.toList.map pyUpper)) 0 (-1) (-1) rfl
                (Or.inl rfl) (Or.inl rfl)
            have hps : dsPositions (natToken d) (natToken s)
                (numericTokens (name.toList.map pyUpper)) =
                dsGo (natToken d) (natToken s) 0 (-1) (-1)
                  (numericTokens (name.toList.map pyUpper)) := rfl
            rw [hps] at hadj
            have hne1 := E hD
            rcases A with hA | ⟨k, hk, hgetD⟩
            · exact absurd hA hne1
            · rcases B with hB | ⟨j, hj, hgetS⟩
              · obtain ⟨hDS, _⟩ := F hS hB
                refine ⟨k, k, hgetD, ?_, by simp⟩
                rw [← hDS]
                exact hgetD
              · refine ⟨k, j, hgetD, hgetS, ?_⟩
                rw [hk, hj] at hadj
                exact Nat.not_lt.mp hadj
  · intro rows hmem
    have hacc : acceptProduct 100 200 "100-50-200-XYZ" = true :=
      (List.mem_filter.mp hmem).2
    exact absurd hacc (by decide)
  · intro rows hmem
    exact List.mem_filter.mpr ⟨hmem, by decide⟩

/-- C2 witness: the accepted name "ANS 100*200 SIL" (which has exactly the
two numeric tokens 100 and 200) is reported by the theorem to contain both
requested dimensions as standalone numeric tokens. -/
theorem C2_witness :
    (natToken 100 ∈ numericTokens ("ANS 100*200 SIL".toList.map pyUpper) ∧
     natToken 200 ∈ numericTokens ("ANS 100*200 SIL".toList.map pyUpper)) ∧
    (3 ≤ (numericTokens ("ANS 100*200 SIL".toList.map pyUpper)).length →
      ∃ i j : Nat,
        (numericTokens ("ANS 100*200 SIL".toList.map pyUpper)).get? i
          = some (natToken 100) ∧
        (numericTokens ("ANS 100*200 SIL".toList.map pyUpper)).get? j
          = some (natToken 200) ∧
        ((i : Int) - (j : Int)).natAbs ≤ 1) :=
  C2_exact_match_rejection.1 100 200 ["ANS 100*200 SIL"] "ANS 100*200 SIL" (by decide)

end ConvSys

namespace ConvSys

/-- C7 counterexample: a `search_direct` turn whose keyword search returns
exactly one product leaves the session stage at the reset value "initial"
— it does not move to `order_creation` (the branch sets
`selected_products` only and performs no stage transition after the
reset). -/
theorem C7_counterexample :
    (generateResponseSearchDirect
        ⟨⟨some 100, some 200, [], none, none⟩, "general", [], "professional", []⟩
        ⟨none, none, some [], none, none, none, "professional", "", "accessory_search",
         0.9, none, some "search_direct"⟩
        "valf bobini" (fun _ => [⟨1, "VALF BOBINI 24V", "K1", 5⟩]) none).1.stage
      = "initial" ∧
    "initial" ≠ "order_creation" := by
  exact ⟨by decide, by decide⟩

/-- C7 (amended): every `search_direct` turn clears the accumulated
specification and resets the stage to "initial" before the keyword search
runs on the oracle-corrected utterance (raw stripped utterance when no
correction is present); then exactly one of: zero hits leave the shortlist
untouched with the not-found reply, a single hit stores it as the
shortlist, several hits store them all and the reply states their count —
and in all three cases the stage remains at the reset value "initial" (no
transition to `order_creation` / `product_selection` / `general`
happens). -/
theorem C7_search_direct_clears (ctx : SDContext) (parsed : Parsed)
    (userInput : String) (kwSearch : String → List Product) (phone : Option String) :
    (generateResponseSearchDirect ctx parsed userInput kwSearch phone).1.specs
      = emptySpecs ∧
    (generateResponseSearchDirect ctx parsed userInput kwSearch phone).1.stage
      = "initial" ∧
    (kwSearch (searchDirectQuery parsed userInput) = [] →
       (generateResponseSearchDirect ctx parsed userInput kwSearch phone).1.selected_products
         = ctx.selected_products ∧
       (generateResponseSearchDirect ctx parsed userInput kwSearch phone).2 =
         "❌ '" ++ userInput ++
           "' için ürün bulunamadı.\n\n💡 Farklı anahtar kelimeler deneyebilir veya müşteri temsilcimizle iletişime geçebilirsiniz.") ∧
    (∀ p, kwSearch (searchDirectQuery parsed userInput) = [p] →
       (generateResponseSearchDirect ctx parsed userInput kwSearch phone).1.selected_products
         = [p]) ∧
    (∀ p q ps, kwSearch (searchDirectQuery parsed userInput) = p :: q :: ps →
       (generateResponseSearchDirect ctx parsed userInput kwSearch phone).1.selected_products
         = p :: q :: ps ∧
       ∃ s1 s2, (generateResponseSearchDirect ctx parsed userInput kwSearch phone).2 =
         s1 ++ toString (p :: q :: ps).length ++ s2) := by
  refine ⟨?_, ?_, ?_, ?_, ?_⟩
  · unfold generateResponseSearchDirect
    rcases kwSearch (searchDirectQuery parsed userInput) with _ | ⟨p, _ | ⟨q, ps⟩⟩ <;> rfl
  · unfold generateResponseSearchDirect
    rcases kwSearch (searchDirectQuery parsed userInput) with _ | ⟨p, _ | ⟨q, ps⟩⟩ <;> rfl
  · intro hk
    unfold generateResponseSearchDirect
    rw [hk]
    exact ⟨rfl, rfl⟩
  · intro p hk
    unfold generateResponseSearchDirect
    rw [hk]
  · intro p q ps hk
    unfold generateResponseSearchDirect
    rw [hk]
    refine ⟨rfl,
      ⟨"✅ '" ++ userInput ++ "' için ",
       " ürün buldum:\n\n🔗 Ürünleri görmek için: https://fired-sq-remedies-cheapest.trycloudflare.com/whatsapp/products/" ++
         (match phone with
          | some ph => if ph = "" then "user" else ph
          | none => "user"),
       by simp [String.append_assoc]⟩⟩

/-- C7 witness: a concrete `search_direct` turn whose keyword search on the
utterance finds a single accessory stores it as the shortlist (stage and
specification facts follow from the same theorem). -/
theorem C7_witness :
    (generateResponseSearchDirect
        ⟨⟨some 100, some 200, [], none, none⟩, "general", [], "professional", []⟩
        ⟨none, none, some [], none, none, none, "professional", "", "accessory_search",
         0.9, none, some "search_direct"⟩
        "valf bobini" (fun _ => [⟨1, "VALF BOBINI 24V", "K1", 5⟩]) none).1.selected_products
      = [⟨1, "VALF BOBINI 24V", "K1", 5⟩] :=
  (C7_search_direct_clears
      ⟨⟨some 100, some 200, [], none, none⟩, "general", [], "professional", []⟩
      ⟨none, none, some [], none, none, none, "professional", "", "accessory_search",
       0.9, none, some "search_direct"⟩
      "valf bobini" (fun _ => [⟨1, "VALF BOBINI 24V", "K1", 5⟩]) none).2.2.2.1
    ⟨1, "VALF BOBINI 24V", "K1", 5⟩ rfl

end ConvSys
